import Mathlib

/-!
Shallow embedding of `ghost/ghost.py` (Ghost.py, a headless-browser
automation layer over QtWebKit).  Pure and state-passing Lean models of:

* `Ghost.wait_for` — the busy-wait adapter (fuel-indexed loop; `none`
  means the fuel ran out, `some (.ok s)` means the condition became true
  in state `s`, `some (.error msg)` means the loop raised with the
  caller-supplied timeout message);
* the network-resource buffering protocol (`HttpResource`,
  `_request_ended`, `_unsupported_content`, `_release_last_resources`,
  `_page_loaded`, `_page_load_started`);
* the JavaScript dialog interception hooks (`javaScriptAlert`,
  `javaScriptConfirm`, `javaScriptPrompt`) and the `confirm` / `prompt`
  context managers;
* the DOM-dependent operations (`click`, `fill`, `set_field_value`) and
  `wait_for_page_loaded`.

Qt engine objects (replies, the disk cache, DOM elements) are modelled as
plain data; the event-loop pumping done by `processEvents` is modelled as
an explicit state-transformer argument of the wait loop.
-/

namespace GhostPy

/-- Model of `Ghost.wait_for`.  The Python loop is

    started_at = time.time()
    while not condition():
        if time.time() > (started_at + self.wait_timeout):
            raise Exception(timeout_message)
        time.sleep(0.01)
        Ghost._app.processEvents()
        if self.wait_callback is not None:
            self.wait_callback()

`S` is the program state the condition closure reads; `events` bundles the
side effects of one iteration (`processEvents` plus `wait_callback`);
`clock i` is the value `time.time()` returns on iteration `i` (iteration
numbering starts at `i0`); `fuel` bounds the number of iterations we
observe (`none` = still looping after `fuel` iterations). -/
def wait_for {S : Type} (cond : S → Bool) (events : S → S) (clock : Nat → Nat)
    (started_at wait_timeout : Nat) (timeout_message : String) :
    Nat → S → Nat → Option (Except String S)
  | 0, _, _ => none
  | fuel + 1, s, i =>
    if cond s then some (Except.ok s)
    else if started_at + wait_timeout < clock i then
      some (Except.error timeout_message)
    else
      wait_for cond events clock started_at wait_timeout timeout_message
        fuel (events s) (i + 1)

/-- Model of a `QNetworkReply` as observed by Ghost: its URL, the value of
`QNetworkRequest.HttpStatusCodeAttribute` (`none` when the attribute is
unset, e.g. on a connection failure), the bytes `readAll` would return,
and the raw header list. -/
structure Reply where
  url : String
  statusAttr : Option Nat
  body : String
  rawHeaders : List (String × String)
deriving DecidableEq, Repr

/-- Python truthiness of `reply.attribute(HttpStatusCodeAttribute)`:
`None` and `0` are falsy. -/
def statusTruthy (reply : Reply) : Bool :=
  match reply.statusAttr with
  | none => false
  | some n => n != 0

/-- Model of the `QNetworkDiskCache` contents: URL → cached body. -/
abbrev Cache : Type := List (String × String)

/-- `cache.data(url)`: `none` models the null device returned for a miss. -/
def cacheData (cache : Cache) (url : String) : Option String :=
  List.lookup url cache

/-- `cache.clear()`. -/
def cacheClear (_cache : Cache) : Cache := []

/-- Model of `HttpResource`: `url`, `content` (possibly recovered from the
cache), `http_status` and the header map, as built by
`HttpResource.__init__`. -/
structure HttpResource where
  url : String
  content : Option String
  http_status : Option Nat
  headers : List (String × String)
deriving DecidableEq, Repr

/-- `HttpResource.__init__(reply, cache, content)`: when `content` is
`None` the body is looked up in the disk cache under the reply URL. -/
def HttpResource.make (reply : Reply) (cache : Cache)
    (content : Option String) : HttpResource :=
  { url := reply.url
    content :=
      match content with
      | some c => some c
      | none => cacheData cache reply.url
    http_status := reply.statusAttr
    headers := reply.rawHeaders }

/-- The slice of a `Ghost` instance's mutable state that the buffering and
load-tracking claims are about: the `http_resources` buffer, the `loaded`
flag, the disk cache, the main frame's current URL and the configured
`wait_timeout`. -/
structure GhostState where
  http_resources : List HttpResource
  loaded : Bool
  cache : Cache
  main_frame_url : String
  wait_timeout : Nat
deriving DecidableEq

/-- `Ghost._request_ended(reply)`: appends an `HttpResource` (content
recovered from cache) when the reply carries an HTTP status attribute. -/
def request_ended (s : GhostState) (reply : Reply) : GhostState :=
  if statusTruthy reply then
    { s with http_resources :=
        s.http_resources ++ [HttpResource.make reply s.cache none] }
  else s

/-- `Ghost._unsupported_content(reply)`: like `_request_ended` but the
content is `reply.readAll()`. -/
def unsupported_content (s : GhostState) (reply : Reply) : GhostState :=
  if statusTruthy reply then
    { s with http_resources :=
        s.http_resources ++ [HttpResource.make reply s.cache (some reply.body)] }
  else s

/-- `Ghost._release_last_resources()`: returns the buffer and resets it. -/
def release_last_resources (s : GhostState) : List HttpResource × GhostState :=
  (s.http_resources, { s with http_resources := [] })

/-- `Ghost._page_loaded()`: sets the flag and clears the disk cache. -/
def page_loaded (s : GhostState) : GhostState :=
  { s with loaded := true, cache := cacheClear s.cache }

/-- `Ghost._page_load_started()`. -/
def page_load_started (s : GhostState) : GhostState :=
  { s with loaded := false }

/-- A completed network exchange delivered to Ghost by the engine:
either the network manager's `finished` signal (`Ghost._request_ended`)
or the page's `unsupportedContent` signal (`Ghost._unsupported_content`). -/
inductive NetEvent where
  | requestEnded (reply : Reply)
  | unsupportedContent (reply : Reply)
deriving DecidableEq, Repr

/-- The reply carried by a network event. -/
def NetEvent.reply : NetEvent → Reply
  | NetEvent.requestEnded r => r
  | NetEvent.unsupportedContent r => r

/-- Dispatch one network event to the corresponding Ghost callback. -/
def applyNetEvent (s : GhostState) : NetEvent → GhostState
  | NetEvent.requestEnded reply => request_ended s reply
  | NetEvent.unsupportedContent reply => unsupported_content s reply

/-- Deliver a sequence of completed exchanges, in arrival order. -/
def runNetEvents (s : GhostState) (es : List NetEvent) : GhostState :=
  es.foldl applyNetEvent s

/-- The `HttpResource` record a completed exchange produces, given the
cache in force when it arrives. -/
def expectedResource (cache : Cache) : NetEvent → HttpResource
  | NetEvent.requestEnded reply => HttpResource.make reply cache none
  | NetEvent.unsupportedContent reply =>
      HttpResource.make reply cache (some reply.body)

/-- The `Ghost` class attributes consulted by the `GhostWebPage` dialog
hooks: `Ghost._alert`, `Ghost._confirm_expected` (pair of the fixed
confirmation value and an optional callback) and `Ghost._prompt_expected`
(pair of the fixed string value and an optional callback). -/
structure DialogState where
  _alert : Option String
  _confirm_expected : Option (Bool × Option (Unit → Bool))
  _prompt_expected : Option (String × Option (Unit → String))

/-- `GhostWebPage.javaScriptAlert(frame, message)`: stores the message in
`Ghost._alert` and returns normally (it never raises).  The `Except`
result type is shared with the other two hooks so that "fails with an
exception" is expressible uniformly. -/
def javaScriptAlert (s : DialogState) (message : String) :
    Except String DialogState :=
  Except.ok { s with _alert := some message }

/-- `GhostWebPage.javaScriptConfirm(frame, message)`: raises when
`Ghost._confirm_expected` is unset; otherwise consumes the slot and
answers with the callback result when a callback was supplied, else with
the fixed confirmation value. -/
def javaScriptConfirm (s : DialogState) (message : String) :
    Except String (Bool × DialogState) :=
  match s._confirm_expected with
  | none =>
      Except.error ("You must specified a value to confirm " ++ message)
  | some (confirmation, callback) =>
      let s1 := { s with _confirm_expected := none }
      match callback with
      | some cb => Except.ok (cb (), s1)
      | none => Except.ok (confirmation, s1)

/-- The two return shapes of `GhostWebPage.javaScriptPrompt`: the PySide
binding returns the pair `(True, result_value)`, the PyQt binding appends
`result_value` to the by-reference list and returns `True` alone. -/
inductive PromptReturn where
  | pyside (ok : Bool) (value : String)
  | pyqt (ok : Bool)
deriving DecidableEq, Repr

/-- The `result_value` the prompt hook produces: the callback result when
a callback was supplied, else the fixed value. -/
def promptAnswer (value : String) (callback : Option (Unit → String)) :
    String :=
  match callback with
  | some cb => cb ()
  | none => value

/-- `GhostWebPage.javaScriptPrompt(frame, message, defaultValue, result)`:
raises when `Ghost._prompt_expected` is unset; otherwise computes the
answer (callback overrides the fixed value), clears the slot, and returns
`(True, answer)` when `result is None`, else appends the answer to
`result` and returns `True`.  The middle component of the ok-triple is
the possibly mutated by-reference list. -/
def javaScriptPrompt (s : DialogState) (message defaultValue : String)
    (result : Option (List String)) :
    Except String (PromptReturn × Option (List String) × DialogState) :=
  match s._prompt_expected with
  | none =>
      Except.error ("You must specified a value for prompt " ++ message)
  | some (value, callback) =>
      let result_value := promptAnswer value callback
      let s1 := { s with _prompt_expected := none }
      match result with
      | none => Except.ok (PromptReturn.pyside true result_value, none, s1)
      | some l =>
          Except.ok (PromptReturn.pyqt true, some (l ++ [result_value]), s1)

/-- `Ghost.confirm.__enter__`: arms the process-wide confirm slot. -/
def confirm_enter (s : DialogState) (confirm : Bool)
    (callback : Option (Unit → Bool)) : DialogState :=
  { s with _confirm_expected := some (confirm, callback) }

/-- `Ghost.confirm.__exit__`: clears the confirm slot. -/
def confirm_exit (s : DialogState) : DialogState :=
  { s with _confirm_expected := none }

/-- `Ghost.prompt.__enter__`: arms the process-wide prompt slot. -/
def prompt_enter (s : DialogState) (value : String)
    (callback : Option (Unit → String)) : DialogState :=
  { s with _prompt_expected := some (value, callback) }

/-- `Ghost.prompt.__exit__`: clears the prompt slot. -/
def prompt_exit (s : DialogState) : DialogState :=
  { s with _prompt_expected := none }

/-- Model of a `QWebElement`: tag name and attribute map. -/
structure Element where
  tagName : String
  attrs : List (String × String)
deriving DecidableEq, Repr

/-- `element.attribute(name)`: Qt returns the empty string when the
attribute is absent. -/
def Element.attribute (el : Element) (name : String) : String :=
  match List.lookup name el.attrs with
  | some v => v
  | none => ""

/-- Model of the main frame's DOM as the engine's selector index: for
each CSS selector, the elements `findAllElements` returns, in document
order. -/
structure Dom where
  selectorMatches : List (String × List Element)
deriving DecidableEq, Repr

/-- `main_frame.findAllElements(selector)`. -/
def findAllElements (dom : Dom) (selector : String) : List Element :=
  match List.lookup selector dom.selectorMatches with
  | some els => els
  | none => []

/-- `main_frame.findFirstElement(selector)`; `none` models a null
`QWebElement`. -/
def findFirstElement (dom : Dom) (selector : String) : Option Element :=
  (findAllElements dom selector).head?

/-- `Ghost.exists(selector)`: the found element is not null. -/
def existsSelector (dom : Dom) (selector : String) : Bool :=
  (findFirstElement dom selector).isSome

/-- The mouse-event script `Ghost.click` evaluates, with the `%s` hole
filled by the selector. -/
def clickScript (selector : String) : String :=
  "var element = document.querySelector(\"" ++ selector ++ "\");\n" ++
  "var evt = document.createEvent(\"MouseEvents\");\n" ++
  "evt.initMouseEvent(\"click\", true, true, window, 1, 1, 1, 1, 1,\n" ++
  "    false, false, false, false, 0, element);\n" ++
  "element.dispatchEvent(evt)"

/-- `Ghost.click(selector)`: raises when the selector matches no element,
else evaluates the mouse-event script (the ok value is the JavaScript
source handed to `evaluate`). -/
def click (dom : Dom) (selector : String) : Except String String :=
  if !existsSelector dom selector then
    Except.error ("Can\x27t find element to click")
  else Except.ok (clickScript selector)

/-- The `<input type=...>` values `Ghost.set_field_value` fills through
`_set_text_value`. -/
def textFieldTypes : List String :=
  ["color", "date", "datetime", "datetime-local", "email", "hidden",
   "month", "number", "password", "range", "search", "tel", "text",
   "time", "url", "week"]

/-- The engine-side action `Ghost.set_field_value` performs once the
element is found: which inner helper runs (or the file-upload click, or
no action at all for an unrecognized input type). -/
inductive FieldAction where
  | setTextValue
  | setTextareaValue
  | setCheckboxesValue
  | setCheckboxValue
  | setRadioValue
  | uploadFileClick
  | noAction
deriving DecidableEq, Repr

/-- `Ghost.set_field_value(selector, value)`: raises when the selector
matches no element; otherwise dispatches on the tag name and, for
`INPUT`, on the `type` attribute, exactly as the source does; raises on
any other tag.  `value` stands for the value filled in; it does not
influence which branch runs. -/
def set_field_value (dom : Dom) (selector : String) (value : String) :
    Except String FieldAction :=
  match findFirstElement dom selector with
  | none =>
      Except.error ("can\x27t find element for " ++ selector ++ "\"")
  | some element =>
      if element.tagName == "SELECT" then Except.ok FieldAction.setTextValue
      else if element.tagName == "TEXTAREA" then
        Except.ok FieldAction.setTextareaValue
      else if element.tagName == "INPUT" then
        if textFieldTypes.contains (element.attribute "type") then
          Except.ok FieldAction.setTextValue
        else if element.attribute "type" == "checkbox" then
          if 1 < (findAllElements dom selector).length then
            Except.ok FieldAction.setCheckboxesValue
          else Except.ok FieldAction.setCheckboxValue
        else if element.attribute "type" == "radio" then
          Except.ok FieldAction.setRadioValue
        else if element.attribute "type" == "file" then
          Except.ok FieldAction.uploadFileClick
        else Except.ok FieldAction.noAction
      else Except.error ("unsuported field tag")

/-- `Ghost.fill(selector, values)`: raises when the form selector matches
no element, else fills each field `selector [name=field]` in turn,
propagating the first failure. -/
def fill (dom : Dom) (selector : String)
    (values : List (String × String)) : Except String (List FieldAction) :=
  if !existsSelector dom selector then Except.error ("Can\x27t find form")
  else
    values.foldlM
      (fun acc fv =>
        match set_field_value dom
            (selector ++ " [name=" ++ fv.1 ++ "]") fv.2 with
        | Except.error e => Except.error e
        | Except.ok a => Except.ok (acc ++ [a]))
      []

/-- The `for resource in resources: if url == resource.url: page =
resource` scan at the end of `Ghost.wait_for_page_loaded`. -/
def pageFromResources (url : String) (resources : List HttpResource) :
    Option HttpResource :=
  resources.foldl
    (fun page resource =>
      if url == resource.url then some resource else page)
    none

/-- `Ghost.wait_for_page_loaded()`: waits on the loaded flag (timeout
message "Unable to load requested page"), drains the resource buffer,
and scans the drained resources for the page resource whose URL equals
the main frame's current URL.  The ok value is the returned pair
`(page, resources)` together with the post-drain state. -/
def wait_for_page_loaded (clock : Nat → Nat) (started_at : Nat)
    (events : GhostState → GhostState) (fuel : Nat) (s : GhostState)
    (i : Nat) :
    Option (Except String
      (Option HttpResource × List HttpResource × GhostState)) :=
  match wait_for (fun t => t.loaded) events clock started_at
      s.wait_timeout ("Unable to load requested page") fuel s i with
  | none => none
  | some (Except.error e) => some (Except.error e)
  | some (Except.ok s1) =>
      let drained := release_last_resources s1
      some (Except.ok
        (pageFromResources s1.main_frame_url drained.1, drained.1,
          drained.2))

end GhostPy

namespace GhostPy

/-- C1: a condition that never becomes true makes `wait_for` fail with the
caller-supplied timeout message, and only on an iteration whose clock
reading strictly exceeds `started_at + wait_timeout`; on every earlier
iteration (where elapsed time is at most `wait_timeout`) it does not
raise. -/
theorem wait_for_timeout_exact {S : Type} (cond : S → Bool) (events : S → S)
    (clock : Nat → Nat) (started_at wait_timeout : Nat)
    (timeout_message : String) (fuel : Nat) (s : S) (i : Nat)
    (r : Except String S)
    (hcond : ∀ t : S, cond t = false)
    (hr : wait_for cond events clock started_at wait_timeout timeout_message
      fuel s i = some r) :
    r = Except.error timeout_message ∧
      ∃ j, i ≤ j ∧ started_at + wait_timeout < clock j ∧
        ∀ k, i ≤ k → k < j → clock k ≤ started_at + wait_timeout := by
  induction fuel generalizing s i with
  | zero => simp [wait_for] at hr
  | succ n ih =>
    rw [wait_for, hcond s] at hr
    simp only [Bool.false_eq_true, if_false] at hr
    by_cases hc : started_at + wait_timeout < clock i
    · rw [if_pos hc] at hr
      refine ⟨by injection hr with h; exact h.symm, i, le_refl i, hc, ?_⟩
      intro k hik hki
      exact absurd (lt_of_le_of_lt hik hki) (lt_irrefl i)
    · rw [if_neg hc] at hr
      obtain ⟨hr1, j, hij, hj, hmin⟩ := ih (events s) (i + 1) hr
      refine ⟨hr1, j, le_trans (Nat.le_succ i) hij, hj, ?_⟩
      intro k hik hkj
      rcases Nat.eq_or_lt_of_le hik with heq | hlt
      · exact heq ▸ Nat.le_of_not_lt hc
      · exact hmin k hlt hkj

/-- Witness for C1: with clock readings `0, 5, 10, …` and timeout `7`,
the loop (condition constantly false) raises the caller's message on
iteration 2, the first whose clock exceeds `0 + 7`. -/
theorem wait_for_timeout_exact_witness :
    (Except.error "page not loaded" : Except String Unit) =
        Except.error "page not loaded" ∧
      ∃ j, 0 ≤ j ∧ 0 + 7 < 5 * j ∧
        ∀ k, 0 ≤ k → k < j → 5 * k ≤ 0 + 7 :=
  wait_for_timeout_exact (fun _ => false) (fun u => u) (fun j => 5 * j)
    0 7 ("page not loaded") 3 () 0 (Except.error ("page not loaded"))
    (fun _ => rfl) (by rfl)

/-- Network callbacks do not touch the disk cache. -/
theorem applyNetEvent_cache (s : GhostState) (e : NetEvent) :
    (applyNetEvent s e).cache = s.cache := by
  cases e with
  | requestEnded reply =>
    simp only [applyNetEvent, request_ended]
    split <;> rfl
  | unsupportedContent reply =>
    simp only [applyNetEvent, unsupported_content]
    split <;> rfl

/-- A network event with a truthy status appends exactly its record. -/
theorem applyNetEvent_resources (s : GhostState) (e : NetEvent)
    (h : statusTruthy e.reply = true) :
    (applyNetEvent s e).http_resources =
      s.http_resources ++ [expectedResource s.cache e] := by
  cases e with
  | requestEnded reply =>
    simp only [applyNetEvent, request_ended, NetEvent.reply] at h ⊢
    rw [if_pos h]
    rfl
  | unsupportedContent reply =>
    simp only [applyNetEvent, unsupported_content, NetEvent.reply] at h ⊢
    rw [if_pos h]
    rfl

/-- Delivering a batch of truthy-status exchanges appends their records in
arrival order, and leaves the cache alone. -/
theorem runNetEvents_resources (es : List NetEvent) (s : GhostState)
    (h : ∀ e ∈ es, statusTruthy e.reply = true) :
    (runNetEvents s es).http_resources =
      s.http_resources ++ es.map (expectedResource s.cache) := by
  induction es generalizing s with
  | nil => simp [runNetEvents]
  | cons e es ih =>
    have he : statusTruthy e.reply = true := h e (List.mem_cons_self e es)
    have hrest : ∀ x ∈ es, statusTruthy x.reply = true :=
      fun x hx => h x (List.mem_cons_of_mem e hx)
    show (runNetEvents (applyNetEvent s e) es).http_resources = _
    rw [ih (applyNetEvent s e) hrest, applyNetEvent_resources s e he,
      applyNetEvent_cache s e]
    simp

/-- C2: starting from a freshly drained (empty) buffer, every completed
exchange with an HTTP status — delivered through `_request_ended` or
`_unsupported_content` — is appended, and the next drain returns exactly
the records of those exchanges in arrival order, leaving the buffer
empty. -/
theorem resource_buffer_drains_exact (s : GhostState) (es : List NetEvent)
    (hempty : s.http_resources = [])
    (h : ∀ e ∈ es, statusTruthy e.reply = true) :
    (release_last_resources (runNetEvents s es)).1 =
        es.map (expectedResource s.cache) ∧
      (release_last_resources (runNetEvents s es)).2.http_resources = [] := by
  constructor
  · show (runNetEvents s es).http_resources = _
    rw [runNetEvents_resources es s h, hempty]
    simp
  · rfl

/-- Witness for C2: two exchanges (one `finished`, one unsupported
content) arriving after a drain are returned by the next drain, in
order, and the buffer ends empty. -/
theorem resource_buffer_drains_exact_witness :
    (release_last_resources (runNetEvents
        ⟨[], true, [("http://a", "cachedA")], "http://a", 8⟩
        [NetEvent.requestEnded ⟨"http://a", some 200, "", []⟩,
         NetEvent.unsupportedContent ⟨"http://b", some 404, "raw", []⟩])).1 =
      List.map (expectedResource [("http://a", "cachedA")])
        [NetEvent.requestEnded ⟨"http://a", some 200, "", []⟩,
         NetEvent.unsupportedContent ⟨"http://b", some 404, "raw", []⟩] ∧
    (release_last_resources (runNetEvents
        ⟨[], true, [("http://a", "cachedA")], "http://a", 8⟩
        [NetEvent.requestEnded ⟨"http://a", some 200, "", []⟩,
         NetEvent.unsupportedContent ⟨"http://b", some 404, "raw", []⟩])).2.http_resources = [] :=
  resource_buffer_drains_exact
    ⟨[], true, [("http://a", "cachedA")], "http://a", 8⟩
    [NetEvent.requestEnded ⟨"http://a", some 200, "", []⟩,
     NetEvent.unsupportedContent ⟨"http://b", some 404, "raw", []⟩]
    (by rfl) (by decide)

/-- C3: arming a confirm (resp. prompt) expectation and letting the hook
consume it leaves the process-wide slot `None`, so a second dialog of the
same kind fails instead of firing the callback again — the callback fires
at most once per scoped expectation — and leaving the `with` block also
clears the slot. -/
theorem dialog_expectation_single_use (s : DialogState) (c : Bool)
    (cb : Option (Unit → Bool)) (v : String) (pcb : Option (Unit → String))
    (msg dv : String) (res : Option (List String)) :
    (∃ ans s2, javaScriptConfirm (confirm_enter s c cb) msg =
        Except.ok (ans, s2) ∧
      s2._confirm_expected = none ∧
      ∀ m2, javaScriptConfirm s2 m2 =
        Except.error ("You must specified a value to confirm " ++ m2)) ∧
    (confirm_exit (confirm_enter s c cb))._confirm_expected = none ∧
    (∃ r l s2, javaScriptPrompt (prompt_enter s v pcb) msg dv res =
        Except.ok (r, l, s2) ∧
      s2._prompt_expected = none ∧
      ∀ m2 dv2 res2, javaScriptPrompt s2 m2 dv2 res2 =
        Except.error ("You must specified a value for prompt " ++ m2)) ∧
    (prompt_exit (prompt_enter s v pcb))._prompt_expected = none := by
  refine ⟨?_, rfl, ?_, rfl⟩
  · cases cb with
    | none => exact ⟨c, _, rfl, rfl, fun m2 => rfl⟩
    | some f => exact ⟨f (), _, rfl, rfl, fun m2 => rfl⟩
  · cases res with
    | none =>
      exact ⟨PromptReturn.pyside true (promptAnswer v pcb), none, _, rfl,
        rfl, fun m2 dv2 res2 => rfl⟩
    | some l =>
      exact ⟨PromptReturn.pyqt true, some (l ++ [promptAnswer v pcb]), _,
        rfl, rfl, fun m2 dv2 res2 => rfl⟩

/-- C4 counterexample: with every dialog slot unset (`None`), the alert
hook does not fail with an exception — it succeeds, recording the
message in `Ghost._alert`.  This refutes the claim for the alert hook. -/
theorem alert_hook_unset_slot_succeeds :
    javaScriptAlert ⟨none, none, none⟩ "hi" =
      Except.ok ⟨some "hi", none, none⟩ := rfl

/-- C4 amended: when their expected-answer slot is unset, the confirm and
prompt hooks fail with an exception; the alert hook never fails — it
stores the message in the process-wide `_alert` slot and succeeds. -/
theorem unset_dialog_slots_behaviour (s : DialogState) (msg dv : String)
    (res : Option (List String))
    (hc : s._confirm_expected = none) (hp : s._prompt_expected = none) :
    javaScriptConfirm s msg =
        Except.error ("You must specified a value to confirm " ++ msg) ∧
      javaScriptPrompt s msg dv res =
        Except.error ("You must specified a value for prompt " ++ msg) ∧
      javaScriptAlert s msg = Except.ok { s with _alert := some msg } := by
  refine ⟨?_, ?_, rfl⟩
  · rw [javaScriptConfirm, hc]
  · rw [javaScriptPrompt, hp]

/-- Witness for C4's amended theorem at a concrete all-unset state. -/
theorem unset_dialog_slots_behaviour_witness :
    javaScriptConfirm ⟨none, none, none⟩ "m" =
        Except.error ("You must specified a value to confirm " ++ "m") ∧
      javaScriptPrompt ⟨none, none, none⟩ "m" "d" none =
        Except.error ("You must specified a value for prompt " ++ "m") ∧
      javaScriptAlert ⟨none, none, none⟩ "m" =
        Except.ok { (⟨none, none, none⟩ : DialogState) with _alert := some "m" } :=
  unset_dialog_slots_behaviour ⟨none, none, none⟩ "m" "d" none rfl rfl

/-- C5: when a confirm/prompt expectation carries a callback, the
engine-visible answer is the callback's result; with no callback it is
the fixed value given at acquisition. -/
theorem dialog_callback_overrides_value (s : DialogState) (c : Bool)
    (f : Unit → Bool) (v : String) (g : Unit → String) (msg dv : String) :
    (∃ s2, javaScriptConfirm (confirm_enter s c (some f)) msg =
        Except.ok (f (), s2)) ∧
      (∃ s2, javaScriptConfirm (confirm_enter s c none) msg =
        Except.ok (c, s2)) ∧
      (∃ s2, javaScriptPrompt (prompt_enter s v (some g)) msg dv none =
        Except.ok (PromptReturn.pyside true (g ()), none, s2)) ∧
      (∃ s2, javaScriptPrompt (prompt_enter s v none) msg dv none =
        Except.ok (PromptReturn.pyside true v, none, s2)) :=
  ⟨⟨_, rfl⟩, ⟨_, rfl⟩, ⟨_, rfl⟩, ⟨_, rfl⟩⟩

/-- C8: the prompt hook's result shape branches on the by-reference
`result` parameter: with `result` absent it returns the pair
`(True, answer)`; with `result` present it appends the answer to the
passed list and returns `True` alone. -/
theorem prompt_result_shapes (s : DialogState) (v : String)
    (cb : Option (Unit → String)) (msg dv : String) (l : List String) :
    (∃ s2, javaScriptPrompt (prompt_enter s v cb) msg dv none =
        Except.ok (PromptReturn.pyside true (promptAnswer v cb), none, s2)) ∧
      (∃ s2, javaScriptPrompt (prompt_enter s v cb) msg dv (some l) =
        Except.ok (PromptReturn.pyqt true,
          some (l ++ [promptAnswer v cb]), s2)) :=
  ⟨⟨_, rfl⟩, ⟨_, rfl⟩⟩

/-- C9: every invocation of the load-finished callback sets the loaded
flag to true and clears the entire disk cache, so an `HttpResource`
constructed without explicit content afterwards recovers no body from
the cache. -/
theorem page_loaded_clears_cache (s : GhostState) (reply : Reply) :
    (page_loaded s).loaded = true ∧
      (page_loaded s).cache = [] ∧
      (HttpResource.make reply (page_loaded s).cache none).content = none :=
  ⟨rfl, rfl, rfl⟩

/-- A selector with no match has a null `findFirstElement` result. -/
theorem findFirstElement_eq_none_of_not_exists (dom : Dom)
    (selector : String) (h : existsSelector dom selector = false) :
    findFirstElement dom selector = none := by
  unfold existsSelector at h
  cases hcase : findFirstElement dom selector with
  | none => rfl
  | some el => rw [hcase] at h; simp at h

/-- C6: a selector matching no element in the current DOM makes `click`,
`fill` and `set_field_value` fail immediately with their respective
element-not-found errors. -/
theorem not_found_selector_ops_fail (dom : Dom) (selector : String)
    (values : List (String × String)) (value : String)
    (h : existsSelector dom selector = false) :
    click dom selector =
        Except.error ("Can\x27t find element to click") ∧
      fill dom selector values = Except.error ("Can\x27t find form") ∧
      set_field_value dom selector value =
        Except.error ("can\x27t find element for " ++ selector ++ "\"") := by
  refine ⟨?_, ?_, ?_⟩
  · simp [click, h]
  · simp [fill, h]
  · simp [set_field_value, findFirstElement_eq_none_of_not_exists dom selector h]

/-- Witness for C6 on an empty DOM and the selector `#go`. -/
theorem not_found_selector_ops_fail_witness :
    click ⟨[]⟩ "#go" = Except.error ("Can\x27t find element to click") ∧
      fill ⟨[]⟩ "#go" [("q", "x")] = Except.error ("Can\x27t find form") ∧
      set_field_value ⟨[]⟩ "#go" "x" =
        Except.error ("can\x27t find element for " ++ "#go" ++ "\"") :=
  not_found_selector_ops_fail ⟨[]⟩ "#go" [("q", "x")] "x" rfl

/-- When the wait loop's per-iteration side effects are the identity (no
engine event fires), the loop can only return the very state it was
given, and only when the condition already holds of it: the loop polls
the condition, it never mutates the state itself. -/
theorem wait_for_id_events_polls {S : Type} (cond : S → Bool)
    (clock : Nat → Nat) (started_at wait_timeout : Nat) (msg : String)
    (fuel : Nat) (s : S) (i : Nat) (s2 : S)
    (h : wait_for cond (fun t => t) clock started_at wait_timeout msg
      fuel s i = some (Except.ok s2)) :
    s2 = s ∧ cond s2 = true := by
  induction fuel generalizing s i with
  | zero => simp [wait_for] at h
  | succ n ih =>
    rw [wait_for] at h
    cases hc : cond s with
    | true =>
      rw [hc] at h
      simp only [if_true] at h
      injection h with h1
      injection h1 with h2
      exact ⟨h2.symm, h2 ▸ hc⟩
    | false =>
      rw [hc] at h
      simp only [Bool.false_eq_true, if_false] at h
      by_cases hclock : started_at + wait_timeout < clock i
      · rw [if_pos hclock] at h
        injection h with h1
        cases h1
      · rw [if_neg hclock] at h
        exact ih s (i + 1) h

/-- C7: the load-started callback sets the loaded flag to false, the
load-finished callback sets it to true, the (modelled) network callbacks
leave it alone, and the busy-wait loop on the flag only polls: with no
engine events pumped it returns the state unchanged, and only with the
flag already true. -/
theorem loaded_flag_protocol (s s2 : GhostState) (reply : Reply)
    (clock : Nat → Nat) (started_at wait_timeout fuel i : Nat)
    (msg : String)
    (h : wait_for (fun t : GhostState => t.loaded) (fun t => t) clock
      started_at wait_timeout msg fuel s i = some (Except.ok s2)) :
    (page_load_started s).loaded = false ∧
      (page_loaded s).loaded = true ∧
      (request_ended s reply).loaded = s.loaded ∧
      (unsupported_content s reply).loaded = s.loaded ∧
      s2 = s ∧ s2.loaded = true := by
  obtain ⟨h1, h2⟩ :=
    wait_for_id_events_polls (fun t : GhostState => t.loaded) clock
      started_at wait_timeout msg fuel s i s2 h
  refine ⟨rfl, rfl, ?_, ?_, h1, h2⟩
  · unfold request_ended
    split <;> rfl
  · unfold unsupported_content
    split <;> rfl

/-- Witness for C7: with the flag already true the loop returns at once
with the state untouched. -/
theorem loaded_flag_protocol_witness :
    (page_load_started ⟨[], true, [], "http://a", 8⟩).loaded = false ∧
      (page_loaded ⟨[], true, [], "http://a", 8⟩).loaded = true ∧
      (request_ended ⟨[], true, [], "http://a", 8⟩
        ⟨"http://a", some 200, "", []⟩).loaded =
        (⟨[], true, [], "http://a", 8⟩ : GhostState).loaded ∧
      (unsupported_content ⟨[], true, [], "http://a", 8⟩
        ⟨"http://a", some 200, "", []⟩).loaded =
        (⟨[], true, [], "http://a", 8⟩ : GhostState).loaded ∧
      (⟨[], true, [], "http://a", 8⟩ : GhostState) =
        ⟨[], true, [], "http://a", 8⟩ ∧
      (⟨[], true, [], "http://a", 8⟩ : GhostState).loaded = true :=
  loaded_flag_protocol ⟨[], true, [], "http://a", 8⟩
    ⟨[], true, [], "http://a", 8⟩ ⟨"http://a", some 200, "", []⟩
    (fun _ => 0) 0 8 1 0 "m" (by rfl)

/-- Appending one resource to the scan keeps the last match. -/
theorem pageFromResources_concat (url : String)
    (resources : List HttpResource) (r : HttpResource)
    (acc : Option HttpResource) :
    (resources ++ [r]).foldl
        (fun page resource =>
          if url == resource.url then some resource else page) acc =
      if url == r.url then some r
      else resources.foldl
        (fun page resource =>
          if url == resource.url then some resource else page) acc := by
  rw [List.foldl_append]
  rfl

/-- The linear scan of `wait_for_page_loaded` computes the last resource
whose URL equals the frame URL. -/
theorem pageFromResources_eq_getLast_filter (url : String)
    (resources : List HttpResource) :
    pageFromResources url resources =
      (resources.filter (fun r => url == r.url)).getLast? := by
  induction resources using List.reverseRecOn with
  | nil => rfl
  | append_singleton rs r ih =>
    unfold pageFromResources at ih ⊢
    rw [pageFromResources_concat, List.filter_append]
    by_cases hr : (url == r.url) = true
    · rw [if_pos hr]
      simp only [List.filter_cons, hr, if_true, List.filter_nil]
      rw [List.getLast?_concat]
    · rw [if_neg hr]
      simp only [List.filter_cons, hr, Bool.false_eq_true, if_false,
        List.filter_nil, List.append_nil]
      exact ih

/-- C10: once the loaded flag is observed true, `wait_for_page_loaded`
drains the buffer and returns the full drained resource list together
with, as the page, the last drained resource whose URL equals the main
frame's current URL; when no drained resource carries that URL the page
is `none` while the resource list is still returned in full. -/
theorem wait_for_page_loaded_page_selection (s : GhostState)
    (clock : Nat → Nat) (started_at fuel i : Nat)
    (h : s.loaded = true) :
    wait_for_page_loaded clock started_at (fun t => t) (fuel + 1) s i =
        some (Except.ok
          ((s.http_resources.filter
              (fun r => s.main_frame_url == r.url)).getLast?,
            s.http_resources,
            { s with http_resources := [] })) ∧
      ((∀ r ∈ s.http_resources, (s.main_frame_url == r.url) = false) →
        (s.http_resources.filter
          (fun r => s.main_frame_url == r.url)).getLast? = none) := by
  constructor
  · unfold wait_for_page_loaded
    conv_lhs => rw [wait_for, h]
    rw [← pageFromResources_eq_getLast_filter]
    rfl
  · intro hnone
    rw [List.filter_eq_nil_iff.mpr (fun r hr => by simp [hnone r hr])]
    rfl

/-- Witness for C10: two drained resources share the frame URL and a
third does not; the page returned is the second (the last match). -/
theorem wait_for_page_loaded_page_selection_witness :
    wait_for_page_loaded (fun _ => 0) 0 (fun t => t) 1
        ⟨[⟨"http://a", none, some 200, []⟩,
          ⟨"http://b", none, some 301, []⟩,
          ⟨"http://a", some "body", some 200, []⟩],
          true, [], "http://a", 8⟩ 0 =
        some (Except.ok
          (((⟨[⟨"http://a", none, some 200, []⟩,
              ⟨"http://b", none, some 301, []⟩,
              ⟨"http://a", some "body", some 200, []⟩],
              true, [], "http://a", 8⟩ : GhostState).http_resources.filter
                (fun r => (⟨[⟨"http://a", none, some 200, []⟩,
                  ⟨"http://b", none, some 301, []⟩,
                  ⟨"http://a", some "body", some 200, []⟩],
                  true, [], "http://a", 8⟩ : GhostState).main_frame_url ==
                    r.url)).getLast?,
            (⟨[⟨"http://a", none, some 200, []⟩,
              ⟨"http://b", none, some 301, []⟩,
              ⟨"http://a", some "body", some 200, []⟩],
              true, [], "http://a", 8⟩ : GhostState).http_resources,
            { (⟨[⟨"http://a", none, some 200, []⟩,
                ⟨"http://b", none, some 301, []⟩,
                ⟨"http://a", some "body", some 200, []⟩],
                true, [], "http://a", 8⟩ : GhostState) with
              http_resources := [] })) ∧
      ((∀ r ∈ (⟨[⟨"http://a", none, some 200, []⟩,
            ⟨"http://b", none, some 301, []⟩,
            ⟨"http://a", some "body", some 200, []⟩],
            true, [], "http://a", 8⟩ : GhostState).http_resources,
          ((⟨[⟨"http://a", none, some 200, []⟩,
            ⟨"http://b", none, some 301, []⟩,
            ⟨"http://a", some "body", some 200, []⟩],
            true, [], "http://a", 8⟩ : GhostState).main_frame_url ==
              r.url) = false) →
        ((⟨[⟨"http://a", none, some 200, []⟩,
          ⟨"http://b", none, some 301, []⟩,
          ⟨"http://a", some "body", some 200, []⟩],
          true, [], "http://a", 8⟩ : GhostState).http_resources.filter
            (fun r => (⟨[⟨"http://a", none, some 200, []⟩,
              ⟨"http://b", none, some 301, []⟩,
              ⟨"http://a", some "body", some 200, []⟩],
              true, [], "http://a", 8⟩ : GhostState).main_frame_url ==
                r.url)).getLast? = none) :=
  wait_for_page_loaded_page_selection
    ⟨[⟨"http://a", none, some 200, []⟩,
      ⟨"http://b", none, some 301, []⟩,
      ⟨"http://a", some "body", some 200, []⟩],
      true, [], "http://a", 8⟩ (fun _ => 0) 0 0 0 rfl

end GhostPy
